import Mathlib

/-!
Verification of the ghf-gsis-lookup relay.

Shallow embedding of the session-authenticated proxy relay found in
`src/server.js` and the unnamed source variants (`src/unnamed/part_000` …
`part_007`).  JavaScript strings are modelled as `List Char` (so that the
character-level parsing done by the cookie and zip code can be evaluated by
the kernel), JavaScript numbers as an inductive `JsNum` covering `NaN`,
infinities and finite values carried as exact rationals (the rational of a
finite `JsNum` stands for the exact real value of the IEEE-754 double),
and the `md5` digest of a cache key as the canonicalized payload itself
(md5 is a deterministic injection for the purposes of key comparison).
Each source variant lives in its own namespace.
-/

namespace StrUtil

/-- JavaScript `s.split(c)` on character lists: split at every
occurrence of the separator character, keeping empty segments
(`"".split(";") = [""]`). -/
def splitAux (c : Char) : List Char → List Char → List (List Char)
  | [], acc => [acc.reverse]
  | x :: xs, acc =>
      if x = c then acc.reverse :: splitAux c xs []
      else splitAux c xs (x :: acc)

/-- JavaScript `String.prototype.split` with a one-character separator. -/
def splitChar (c : Char) (s : List Char) : List (List Char) :=
  splitAux c s []

/-- Whitespace recognised by JavaScript `trim` (the forms appearing in
cookie strings). -/
def isWsp (c : Char) : Bool :=
  c = ' ' || c = '\t' || c = '\n' || c = '\r'

/-- JavaScript `String.prototype.trim`. -/
def trim (s : List Char) : List Char :=
  ((s.dropWhile isWsp).reverse.dropWhile isWsp).reverse

/-- Split a string at the first `'='`, as `kv.indexOf("=")` followed by
`kv.slice(0, i)` / `kv.slice(i + 1)` does; `none` when the string has no
`'='` (JavaScript `indexOf` returning `-1`). -/
def splitFirstEq : List Char → Option (List Char × List Char)
  | [] => none
  | c :: cs =>
      if c = '=' then some ([], cs)
      else (splitFirstEq cs).map (fun p => (c :: p.1, p.2))

end StrUtil

namespace V7
/-! Embedding of `src/unnamed/part_007` (the variant with the in-memory
cookie jar built on a name-keyed `Map`). -/

open StrUtil

/-- A JavaScript `Map` from cookie names to values: an association list
with unique keys in insertion order. -/
abbrev Jar := List (List Char × List Char)

/-- Operation `jar.set(k, v)`: update in place when the key is present (keeping its
position), append otherwise. -/
def jarSet (j : Jar) (k v : List Char) : Jar :=
  if j.any (fun p => p.1 == k) then
    j.map (fun p => if p.1 == k then (k, v) else p)
  else j ++ [(k, v)]

/-- Operation `jar.get(k)` (the value recovered when the rebuilt cookie header is
later parsed again). -/
def jarGet (j : Jar) (k : List Char) : Option (List Char) :=
  (j.find? (fun p => p.1 == k)).map (fun p => p.2)

/-- Function `mergeCookies`, loading phase: parse the existing cookie header
(`existing.split(";")`, trim, drop empties, split each pair at the first
`'='`, skip pairs without one). -/
def loadJar (existing : List Char) : Jar :=
  ((((splitChar ';' existing).map trim).filter (fun s => !s.isEmpty)).foldl
    (fun j kv =>
      match splitFirstEq kv with
      | none => j
      | some (k, v) => jarSet j k v) [])

/-- Function `mergeCookies`, one line of a `Set-Cookie` header: take the part
before the first `';'`, trim it, and split it at the first `'='`
(`continue` when there is none). -/
def parseSetCookieLine (line : List Char) : Option (List Char × List Char) :=
  splitFirstEq (trim ((splitChar ';' line).headD []))

/-- Function `mergeCookies`, applying one `Set-Cookie` string: split it on
newlines and `jar.set` each parsed pair in order. -/
def addSetCookie (j : Jar) (c : List Char) : Jar :=
  ((splitChar '\n' c).filterMap parseSetCookieLine).foldl
    (fun j p => jarSet j p.1 p.2) j

/-- Function `mergeCookies`, applying every `Set-Cookie` header in order. -/
def applySetCookies (j : Jar) (scs : List (List Char)) : Jar :=
  scs.foldl addSetCookie j

/-- Function `mergeCookies`, rendering phase:
`Array.from(jar.entries()).map(([k, v]) => k + "=" + v).join("; ")`. -/
def renderJar (j : Jar) : List Char :=
  List.intercalate ("; ".toList) (j.map (fun p => p.1 ++ '=' :: p.2))

/-- Function `mergeCookies(existing, setCookies)` of `part_007`. -/
def mergeCookies (existing : List Char) (setCookies : List (List Char)) : List Char :=
  renderJar (applySetCookies (loadJar existing) setCookies)

/-- All name/value pairs carried by a list of `Set-Cookie` headers, in
the order the merge loop visits them. -/
def newPairs (scs : List (List Char)) : List (List Char × List Char) :=
  scs.flatMap (fun c => (splitChar '\n' c).filterMap parseSetCookieLine)

/-- The value the merge loop leaves for a name: the last pair carrying
that name, if any. -/
def lastVal (ps : List (List Char × List Char)) (k : List Char) : Option (List Char) :=
  ps.foldl (fun acc p => if p.1 == k then some p.2 else acc) none

end V7

namespace Js

/-- A JavaScript number: `NaN`, an infinity, or a finite double whose
exact real value is the carried rational. -/
inductive JsNum where
  | nan : JsNum
  | inf : Bool → JsNum
  | fin : ℚ → JsNum
deriving DecidableEq

/-- JavaScript `Number.isFinite`. -/
def JsNum.isFinite : JsNum → Bool
  | .fin _ => true
  | _ => false

/-- Rounding performed by `x.toFixed(6)` on finite values: nearest
multiple of one millionth, ties away from zero (the ECMAScript `toFixed`
rule applied to the exact value of the double; faithful for
magnitudes below ten to the 21st). -/
def round6 (q : ℚ) : ℚ :=
  (if 0 ≤ q then ((⌊q * 1000000 + 1/2⌋ : ℤ) : ℚ)
   else -((⌊-q * 1000000 + 1/2⌋ : ℤ) : ℚ)) / 1000000

/-- The composition `+(x.toFixed(6))` used to canonicalize a coordinate:
`NaN.toFixed(6)` is `"NaN"` and `+"NaN"` is `NaN`; infinities reproduce
themselves; a finite value is rounded to 6 decimals. -/
def toFixed6Plus : JsNum → JsNum
  | .nan => .nan
  | .inf b => .inf b
  | .fin q => .fin (round6 q)

/-- The JSON value `JSON.stringify` writes for a number: `null` for
non-finite numbers, the decimal literal otherwise. -/
inductive CanonNum where
  | null : CanonNum
  | num : ℚ → CanonNum
deriving DecidableEq

/-- Canonical JSON image of a JavaScript number. -/
def canonOf : JsNum → CanonNum
  | .fin q => .num q
  | _ => .null

end Js

namespace V0
/-! Embedding of the first variant in `src/server.js`: the `Set`-based
cookie merge of `updateCookiesFromResponse` (lines 76–96) and the
single-TTL cache (lines 43–61). -/

open StrUtil

/-- Insertion into a JavaScript `Set` of strings kept in insertion
order. -/
def setAdd (l : List (List Char)) (x : List Char) : List (List Char) :=
  if l.contains x then l else l ++ [x]

/-- The merge performed by `updateCookiesFromResponse`: split the
`Set-Cookie` header on commas, keep each pair before the first
semicolon, and add the whole `"name=value"` strings to the set of
existing pairs. -/
def updateCookiesMerge (gsisCookies setCookie : List Char) : List Char :=
  let parts := ((splitChar ',' setCookie).map
      (fun c => trim ((splitChar ';' c).headD []))).filter (fun s => !s.isEmpty)
  let existing := (((splitChar ';' gsisCookies).map trim).filter
      (fun s => !s.isEmpty)).foldl setAdd []
  List.intercalate ("; ".toList) (parts.foldl setAdd existing)

/-- Constant `CACHE_TTL_MS` with the default `CACHE_TTL_DAYS = 30`. -/
def CACHE_TTL_MS : Nat := 1000 * 60 * 60 * 24 * 30

/-- A cache slot `{ ts, data }` as stored by `cacheSet`. -/
structure CacheEntry (α : Type) where
  ts : Nat
  data : α
deriving DecidableEq

/-- Call `cacheSet(key, data)` at time `now`. -/
def cacheSet {α} (now : Nat) (data : α) : CacheEntry α := ⟨now, data⟩

/-- Call `cacheGet` at time `now` on the slot stored under the key: the
entry is returned unless `now - ts > CACHE_TTL_MS` (lazy eviction is the
`none` answer). -/
def cacheGet {α} (hit : Option (CacheEntry α)) (now : Nat) : Option α :=
  match hit with
  | none => none
  | some h => if now - h.ts > CACHE_TTL_MS then none else some h.data

end V0

namespace V2
/-! Embedding of the per-outcome-TTL cache shared by the later variants
of `src/server.js` (lines 341–359, 479–498, 564–583) and by
`src/unnamed/part_007`. -/

/-- Success retention: 30 days. -/
def OK_TTL_MS : Nat := 1000 * 60 * 60 * 24 * 30

/-- Failure retention: 2 minutes. -/
def FAIL_TTL_MS : Nat := 1000 * 60 * 2

/-- A cache slot `{ ts, ttl, data }` as stored by `cacheSet`. -/
structure CacheEntry (α : Type) where
  ts : Nat
  ttl : Nat
  data : α
deriving DecidableEq

/-- Call `cacheSet(key, data, ttl)` at time `now`. -/
def cacheSet {α} (now : Nat) (data : α) (ttl : Nat) : CacheEntry α :=
  ⟨now, ttl, data⟩

/-- Call `cacheGet` at time `now`: the entry is returned unless
`now - ts > ttl`. -/
def cacheGet {α} (hit : Option (CacheEntry α)) (now : Nat) : Option α :=
  match hit with
  | none => none
  | some h => if now - h.ts > h.ttl then none else some h.data

/-- TTL chosen by the routes: `out.ok ? OK_TTL_MS : FAIL_TTL_MS`. -/
def outcomeTtl (ok : Bool) : Nat := if ok then OK_TTL_MS else FAIL_TTL_MS

end V2

namespace P2
/-! Embedding of `src/unnamed/part_002`: the cookie bootstrap
`ensureGsisCookie` and the 403-retry of `fetchJsonViaGsisProxy`. -/

open StrUtil

/-- Freshness window `GSIS_COOKIE_TTL_MS` (45 minutes). -/
def GSIS_COOKIE_TTL_MS : Nat := 1000 * 60 * 45

/-- Module-level cookie state: `gsisCookie` and `gsisCookieTs`. -/
structure Session where
  cookie : List Char
  ts : Nat
deriving DecidableEq

/-- Outcome of one warm-up (priming) fetch against the gateway: the
network call may throw, or yield a response carrying a list of
`Set-Cookie` headers (possibly empty). -/
inductive WarmOutcome where
  | netError : WarmOutcome
  | response : List (List Char) → WarmOutcome
deriving DecidableEq

/-- Function `buildCookieHeader(setCookies)`: keep the `name=value` part
of each `Set-Cookie` header, drop empties, join with `"; "`. -/
def buildCookieHeader (setCookies : List (List Char)) : List Char :=
  List.intercalate ("; ".toList)
    ((setCookies.map (fun sc => trim ((splitChar ';' sc).headD []))).filter
      (fun s => !s.isEmpty))

/-- Call `ensureGsisCookie()` at time `now`, with `warm` the outcome the
warm-up fetch would produce.  Returns the state the globals hold
afterwards, and either the cookie handed to the caller together with the
number of priming calls performed, or `.error` for the `fetch` rejection
propagating (which leaves the globals untouched). -/
def ensureGsisCookie (st : Session) (now : Nat) (warm : WarmOutcome) :
    Session × Except Unit (List Char × Nat) :=
  if !st.cookie.isEmpty && now - st.ts < GSIS_COOKIE_TTL_MS then
    (st, .ok (st.cookie, 0))
  else
    match warm with
    | .netError => (st, .error ())
    | .response scs =>
        let cookie := buildCookieHeader scs
        if !cookie.isEmpty then (⟨cookie, now⟩, .ok (cookie, 1))
        else (st, .ok (st.cookie, 1))

/-- Transport-level view of one proxied fetch: HTTP status and the JSON
body (`none` when the text does not parse). -/
structure HttpResp (β : Type) where
  status : Nat
  body : Option β
deriving DecidableEq

/-- Property `res.ok` of the Fetch API. -/
def resOk (status : Nat) : Bool := 200 ≤ status && status ≤ 299

/-- Classification produced by `parseJsonResponse`: parsed payload, the
non-JSON failure, or the HTTP failure carrying the status. -/
inductive RawResult (β : Type) where
  | okJson : β → RawResult β
  | nonJson : Nat → RawResult β
  | httpFail : Nat → RawResult β
deriving DecidableEq

/-- Function `parseJsonResponse(res)`. -/
def parseJsonResponse {β} (r : HttpResp β) : RawResult β :=
  match r.body with
  | none => .nonJson r.status
  | some j => if resOk r.status then .okJson j else .httpFail r.status

/-- Trace of one `fetchJsonViaGsisProxy` call: classified result, number
of fetches of the target URL, and number of priming calls made during
403 recovery. -/
structure CallTrace (β : Type) where
  result : RawResult β
  targetFetches : Nat
  recoveryAcquisitions : Nat
deriving DecidableEq

/-- Function `fetchJsonViaGsisProxy` of `part_002`: ensure a cookie and
fetch the target; on HTTP 403 clear the jar (`gsisCookie = "";
gsisCookieTs = 0`), re-acquire via `ensureGsisCookie`, fetch the target
once more and return that second response's classification whatever it
is.  `warm i` is the outcome of the `i`-th warm-up fetch and
`responses i` the response to the `i`-th fetch of the target URL. -/
def fetchJsonViaGsisProxy {β} (st : Session) (now : Nat)
    (warm : Nat → WarmOutcome) (responses : Nat → HttpResp β) :
    Session × Except Unit (CallTrace β) :=
  match ensureGsisCookie st now (warm 0) with
  | (st1, .error e) => (st1, .error e)
  | (st1, .ok _) =>
      let r0 := responses 0
      if r0.status = 403 then
        match ensureGsisCookie ⟨[], 0⟩ now (warm 1) with
        | (st2, .error e) => (st2, .error e)
        | (st2, .ok (_, acq)) =>
            (st2, .ok ⟨parseJsonResponse (responses 1), 2, acq⟩)
      else (st1, .ok ⟨parseJsonResponse r0, 1, 0⟩)

end P2

namespace V7
/-! Continuation of the `part_007` embedding: cache keys, lookup by
point, geocoding and the two route bodies. -/

open Js

/-- Cache key of the `/lookup` route, that is
`makeCacheKey({ t: "ll", lat: +lat.toFixed(6), lng: +lng.toFixed(6) })`.
The md5 digest of the serialized object is modelled as the canonical
payload itself (md5 is a deterministic injection for key comparison). -/
structure LLKey where
  lat : CanonNum
  lng : CanonNum
deriving DecidableEq

/-- Build the `/lookup` cache key from the parsed body coordinates. -/
def makeCacheKeyLL (lat lng : JsNum) : LLKey :=
  ⟨canonOf (toFixed6Plus lat), canonOf (toFixed6Plus lng)⟩

/-- Zip normalization `String(zip).replace(/\D+/g, "")`. -/
def normalizeZip (zip : List Char) : List Char :=
  zip.filter Char.isDigit

/-- Cache key of the `/lookup-zip` route,
`makeCacheKey({ t: "zip", zip: clean })`, with the md5 digest modelled
as the canonical payload. -/
structure ZipKey where
  zip : List Char
deriving DecidableEq

/-- Build the `/lookup-zip` cache key. -/
def makeCacheKeyZip (clean : List Char) : ZipKey := ⟨clean⟩

/-- An ArcGIS attribute value (JSON number or string). -/
inductive AttrVal where
  | num : ℚ → AttrVal
  | str : List Char → AttrVal
deriving DecidableEq

/-- Numeric value of an all-digit string. -/
def digitsVal (ds : List Char) : Nat :=
  ds.foldl (fun a c => a * 10 + (c.toNat - 48)) 0

/-- JavaScript `Number(v)` on attribute values (digit and
digit-dot-digit strings; other strings are `NaN`; sign and exponent
forms, which the upstream attribute data does not use, are out of the
modelled fragment). -/
def jsToNumber : AttrVal → JsNum
  | .num q => .fin q
  | .str s =>
      let t := StrUtil.trim s
      if t.isEmpty then .fin 0
      else if t.all Char.isDigit then .fin ((digitsVal t : ℤ) : ℚ)
      else
        match StrUtil.splitChar '.' t with
        | [ip, fp] =>
            if !ip.isEmpty && ip.all Char.isDigit
                && !fp.isEmpty && fp.all Char.isDigit then
              .fin (((digitsVal ip : ℤ) : ℚ)
                + ((digitsVal fp : ℤ) : ℚ) / ((10 : ℚ) ^ fp.length))
            else .nan
        | _ => .nan

/-- Attributes of a zone feature: each field is `none` for JSON null or
absent (the two behave alike under `??` and `!= null`). -/
structure ZoneAttrs where
  ZONEREGISTRYID : Option AttrVal
  ZONENAME : Option AttrVal
  TIMH : Option AttrVal
  CURRENTZONEVALUE : Option AttrVal
deriving DecidableEq

/-- One feature of an ArcGIS query response. -/
structure Feature where
  attributes : Option ZoneAttrs
deriving DecidableEq

/-- Payload of an ArcGIS layer query. -/
structure QueryPayload where
  features : List Feature
deriving DecidableEq

/-- Result object of `lookupByLatLng` (`String(x)` on the zone id is
modelled as the identity on the attribute value). -/
structure LLOut where
  ok : Bool
  error : Option (List Char)
  zone_id : Option AttrVal
  zone_name : Option AttrVal
  tz_eur_sqm : Option JsNum
deriving DecidableEq

/-- Attribute-normalization tail of `lookupByLatLng`: the first
feature's attributes, or the "No attributes returned" failure; the
assessed value is `attrs.TIMH ?? attrs.CURRENTZONEVALUE ?? null`,
coerced with `Number` when non-null. -/
def normalizeAttrs (p : QueryPayload) : LLOut :=
  match (p.features.head?).bind (fun f => f.attributes) with
  | none => ⟨false, some ("No attributes returned".toList), none, none, none⟩
  | some a =>
      let tz := a.TIMH.orElse (fun _ => a.CURRENTZONEVALUE)
      ⟨true, none, a.ZONEREGISTRYID, a.ZONENAME, tz.map jsToNumber⟩

/-- Classified outcome of `fetchJsonViaGsisProxy` as `lookupByLatLng`
sees it: parsed JSON payload, or a `{ ok: false, error }` object. -/
inductive FetchRes where
  | okJson : QueryPayload → FetchRes
  | fail : List Char → FetchRes
deriving DecidableEq

/-- One use of the proxy collaborator: its classified response plus the
number of warm-up fetches `warmUpGsisSession` performs before the target
fetch (so the proxy call costs `warmCalls + 1` network calls). -/
structure ProxyCall where
  warmCalls : Nat
  response : FetchRes
deriving DecidableEq

/-- Network calls one proxy invocation performs. -/
def proxyNetCalls (p : ProxyCall) : Nat := p.warmCalls + 1

/-- Function `lookupByLatLng(lat, lng)` with its network cost: the
finiteness guard runs before any proxy call, so the invalid branch costs
0 network calls. -/
def lookupByLatLng (lat lng : JsNum) (net : ProxyCall) : LLOut × Nat :=
  if !(lat.isFinite && lng.isFinite) then
    (⟨false, some ("Invalid lat/lng".toList), none, none, none⟩, 0)
  else
    match net.response with
    | .okJson p => (normalizeAttrs p, proxyNetCalls net)
    | .fail e => (⟨false, some e, none, none, none⟩, proxyNetCalls net)

/-- Body of the `/lookup` route of `part_007` after `requireApiKey`
(cache key computed before any validity check): the result with its
`cached` flag, and the total count of network calls. -/
def lookupRoute (lat lng : JsNum) (cacheF : LLKey → Option LLOut)
    (net : ProxyCall) : (LLOut × Bool) × Nat :=
  match cacheF (makeCacheKeyLL lat lng) with
  | some hit => ((hit, true), 0)
  | none =>
      let r := lookupByLatLng lat lng net
      ((r.1, false), r.2)

/-- Top geocode candidate as the route reads it (`c?.location?.y`,
`c?.location?.x`, `c?.score`, `c?.address`), with the optional chains
flattened into optional fields. -/
structure GeoCandidate where
  lat : Option JsNum
  lng : Option JsNum
  score : Option ℚ
  address : Option (List Char)
deriving DecidableEq

/-- Geocoder response payload. -/
structure GeoResponse where
  candidates : List GeoCandidate
deriving DecidableEq

/-- Accepted geocode result. -/
structure GeoResult where
  lat : JsNum
  lng : JsNum
  address : Option (List Char)
  score : ℚ
deriving DecidableEq

/-- Check `Number.isFinite` applied to a possibly-undefined value. -/
def finOpt : Option JsNum → Bool
  | some n => n.isFinite
  | none => false

/-- Function `geocodeZip(zip)` of `part_007` (and `src/server.js`
lines 410–431): re-normalize and length-check the zip, read the top
candidate, and reject unless latitude and longitude are finite and
`score < 90` is false, the score defaulting to 0 when absent. -/
def geocodeZip (zip : List Char) (resp : GeoResponse) : Option GeoResult :=
  let clean := normalizeZip zip
  if clean.length ≠ 5 then none
  else
    let c := resp.candidates.head?
    let lat := c.bind (fun x => x.lat)
    let lng := c.bind (fun x => x.lng)
    let score := (c.bind (fun x => x.score)).getD 0
    if !(finOpt lat) || !(finOpt lng) || score < 90 then none
    else some ⟨lat.getD .nan, lng.getD .nan, c.bind (fun x => x.address), score⟩

/-- Outcome of the `/lookup-zip` route body. -/
inductive ZipOutcome where
  | badRequest : ZipOutcome
  | hit : LLOut → ZipOutcome
  | geoFailed : List Char → ZipOutcome
  | done : LLOut → GeoResult → ZipOutcome
deriving DecidableEq

/-- Body of the `/lookup-zip` route of `part_007`: the outcome, the
number of geocoder calls, and the number of zone-query (proxy) network
calls. -/
def lookupZipRoute (zip : List Char) (cacheF : ZipKey → Option LLOut)
    (resp : GeoResponse) (net : ProxyCall) : ZipOutcome × Nat × Nat :=
  let clean := normalizeZip zip
  if clean.length ≠ 5 then (.badRequest, 0, 0)
  else
    match cacheF (makeCacheKeyZip clean) with
    | some h => (.hit h, 0, 0)
    | none =>
        match geocodeZip clean resp with
        | none => (.geoFailed clean, 1, 0)
        | some g =>
            let r := lookupByLatLng g.lat g.lng net
            (.done r.1 g, 1, r.2)

end V7

namespace VZ
/-! Embedding of the fourth variant in `src/server.js` (lines 770–945):
`queryZoneByPoint` and the truthiness acceptance check of its
`/lookup-zip` route. -/

open V7

/-- Zone record produced by `queryZoneByPoint` (lines 854–895), with
`String(x)` on ids modelled as the identity on the attribute value. -/
structure Zone where
  tz_eur_sqm : Option Js.JsNum
  zone_id : Option AttrVal
  zone_name : Option AttrVal
deriving DecidableEq

/-- Normalization tail of `queryZoneByPoint`: `null` when the payload
has no first-feature attributes. -/
def queryZoneByPoint (p : QueryPayload) : Option Zone :=
  match (p.features.head?).bind (fun f => f.attributes) with
  | none => none
  | some a =>
      let tz := a.TIMH.orElse (fun _ => a.CURRENTZONEVALUE)
      some ⟨tz.map jsToNumber, a.ZONEREGISTRYID, a.ZONENAME⟩

/-- JavaScript truthiness of the `String(v)` stored in `zone_id`
(`String` of a number is never empty, so only null and the empty string
are falsy). -/
def truthyStr : Option AttrVal → Bool
  | none => false
  | some (.num _) => true
  | some (.str s) => !s.isEmpty

/-- JavaScript truthiness of the number stored in `tz_eur_sqm` (null,
`0` and `NaN` are falsy). -/
def truthyNum : Option Js.JsNum → Bool
  | none => false
  | some .nan => false
  | some (.inf _) => true
  | some (.fin q) => if q = 0 then false else true

/-- Route-level outcome: the `ok` flag and the error detail. -/
structure Out where
  ok : Bool
  error : Option (List Char)
deriving DecidableEq

/-- Acceptance check of the `/lookup-zip` route (lines 914–924):
`!zone || !zone.zone_id || !zone.tz_eur_sqm` yields the
"No attributes returned" failure, anything else succeeds. -/
def zipZoneOutcome (zone : Option Zone) : Out :=
  match zone with
  | none => ⟨false, some ("No attributes returned".toList)⟩
  | some z =>
      if !(truthyStr z.zone_id) || !(truthyNum z.tz_eur_sqm) then
        ⟨false, some ("No attributes returned".toList)⟩
      else ⟨true, none⟩

end VZ

namespace Routes
/-! Route-boundary model for the exception-surfacing claim: the
`try/catch` wrapper of the `src/server.js` routes versus the bare
handlers of `src/unnamed/part_001`. -/

/-- A JavaScript exception value. -/
structure JsError where
  message : List Char
deriving DecidableEq

/-- Outcome of awaiting the handler body: a value, or a thrown
exception. -/
inductive Awaited (α : Type) where
  | value : α → Awaited α
  | thrown : JsError → Awaited α
deriving DecidableEq

/-- An HTTP response a route writes: status, the `ok` flag of the JSON
body, the `error` field, and the payload. -/
structure Response (α : Type) where
  status : Nat
  ok : Bool
  error : Option (List Char)
  payload : Option α
deriving DecidableEq

/-- A `/lookup` or `/lookup-zip` handler with the `try/catch` wrapper
(`src/server.js` lines 270–285 and the other caught variants): any
exception from the flow becomes
`res.status(500).json({ ok: false, error: String(e.message || e) })`;
the handler always returns a response. -/
def lookupRouteCaught {α} (flow : Awaited α) (render : α → Response α) :
    Response α :=
  match flow with
  | .value a => render a
  | .thrown e => ⟨500, false, some e.message, none⟩

/-- The `/lookup` handler of `src/unnamed/part_001` (lines 195–209),
which has no `try/catch`: a thrown exception leaves the handler as a
rejection instead of a response. -/
def lookupRouteUncaught {α} (flow : Awaited α) (render : α → Response α) :
    Awaited (Response α) :=
  match flow with
  | .value a => .value (render a)
  | .thrown e => .thrown e

end Routes

namespace V7

theorem find?_overwrite_self (t : Jar) (k v : List Char)
    (h : t.any (fun q => q.1 == k) = true) :
    (t.map (fun q => if q.1 == k then (k, v) else q)).find? (fun q => q.1 == k)
      = some (k, v) := by
  induction t with
  | nil => simp at h
  | cons q s ih =>
    rw [List.map_cons]
    cases hq : (q.1 == k) with
    | true =>
      rw [if_pos rfl, List.find?_cons_of_pos _ (by simp)]
    | false =>
      have hs : s.any (fun q => q.1 == k) = true := by
        simpa [hq] using h
      rw [if_neg (by simp), List.find?_cons_of_neg _ (by simp [hq])]
      exact ih hs

theorem find?_overwrite_ne (t : Jar) (k v k' : List Char)
    (hkk' : (k == k') = false) :
    (t.map (fun q => if q.1 == k then (k, v) else q)).find? (fun q => q.1 == k')
      = t.find? (fun q => q.1 == k') := by
  induction t with
  | nil => simp
  | cons q s ih =>
    rw [List.map_cons]
    cases hq : (q.1 == k) with
    | true =>
      have hq1 : q.1 = k := by simpa using hq
      have hq' : (q.1 == k') = false := by rw [hq1]; exact hkk'
      rw [if_pos rfl, List.find?_cons_of_neg _ (by simp [hkk']),
        List.find?_cons_of_neg _ (by simp [hq'])]
      exact ih
    | false =>
      rw [if_neg (by simp)]
      cases hq' : (q.1 == k') with
      | true =>
        rw [List.find?_cons_of_pos _ (by simp [hq']),
          List.find?_cons_of_pos _ (by simp [hq'])]
      | false =>
        rw [List.find?_cons_of_neg _ (by simp [hq']),
          List.find?_cons_of_neg _ (by simp [hq'])]
        exact ih

theorem jarGet_jarSet_self (j : Jar) (k v : List Char) :
    jarGet (jarSet j k v) k = some v := by
  unfold jarGet jarSet
  cases hA : j.any (fun p => p.1 == k) with
  | true =>
    rw [if_pos rfl, find?_overwrite_self j k v hA]
    rfl
  | false =>
    have hnone : j.find? (fun p => p.1 == k) = none := by
      rw [List.find?_eq_none]
      intro x hx hpx
      have hT : j.any (fun p => p.1 == k) = true :=
        List.any_eq_true.mpr ⟨x, hx, hpx⟩
      rw [hA] at hT
      exact Bool.false_ne_true hT
    rw [if_neg (by simp), List.find?_append, hnone,
      List.find?_cons_of_pos _ (by simp)]
    rfl

theorem jarGet_jarSet_ne (j : Jar) (k v k' : List Char) (hne : k' ≠ k) :
    jarGet (jarSet j k v) k' = jarGet j k' := by
  have hkk' : (k == k') = false := by
    cases hb : (k == k') with
    | true =>
      have hkeq : k = k' := by simpa using hb
      exact absurd hkeq.symm hne
    | false => rfl
  unfold jarGet jarSet
  cases hA : j.any (fun p => p.1 == k) with
  | true =>
    rw [if_pos rfl, find?_overwrite_ne j k v k' hkk']
  | false =>
    rw [if_neg (by simp), List.find?_append,
      List.find?_cons_of_neg _ (by simp [hkk']), List.find?_nil, Option.or_none]

theorem foldl_if_last (ps : List (List Char × List Char)) (k : List Char)
    (a : Option (List Char)) :
    ps.foldl (fun acc p => if p.1 == k then some p.2 else acc) a
      = (lastVal ps k).elim a some := by
  induction ps generalizing a with
  | nil => simp [lastVal]
  | cons p t ih =>
    show t.foldl _ (if p.1 == k then some p.2 else a) = _
    rw [ih]
    have hlv : lastVal (p :: t) k
        = (lastVal t k).elim (if p.1 == k then some p.2 else none) some := by
      show t.foldl _ (if p.1 == k then some p.2 else none) = _
      rw [ih]
    rw [hlv]
    cases lastVal t k with
    | none => cases hp : (p.1 == k) <;> simp [hp]
    | some v => simp

theorem jarGet_foldl_set (ps : List (List Char × List Char)) (j : Jar)
    (k : List Char) :
    jarGet (ps.foldl (fun j p => jarSet j p.1 p.2) j) k
      = (lastVal ps k).elim (jarGet j k) some := by
  induction ps generalizing j with
  | nil => simp [lastVal]
  | cons p t ih =>
    show jarGet (t.foldl _ (jarSet j p.1 p.2)) k = _
    rw [ih]
    have hlv : lastVal (p :: t) k
        = (lastVal t k).elim (if p.1 == k then some p.2 else none) some := by
      show t.foldl _ (if p.1 == k then some p.2 else none) = _
      rw [foldl_if_last]
    rw [hlv]
    cases lastVal t k with
    | some v => simp
    | none =>
      cases hp : (p.1 == k) with
      | true =>
        have h1 : p.1 = k := by simpa using hp
        simp only [Option.elim_none, Option.elim_some, if_pos rfl]
        rw [← h1]
        exact jarGet_jarSet_self j p.1 p.2
      | false =>
        have h1 : k ≠ p.1 := fun h => by simp [h] at hp
        simp only [Option.elim_none, Option.elim_some, if_neg (by simp : ¬false = true)]
        exact jarGet_jarSet_ne j p.1 p.2 k h1

theorem applySetCookies_eq_foldl (j : Jar) (scs : List (List Char)) :
    applySetCookies j scs
      = (newPairs scs).foldl (fun j p => jarSet j p.1 p.2) j := by
  induction scs generalizing j with
  | nil => simp [applySetCookies, newPairs]
  | cons c t ih =>
    show applySetCookies (addSetCookie j c) t = _
    rw [ih]
    simp [newPairs, addSetCookie, List.foldl_append]

end V7

/-- **C2** (amended): in the `Map`-based merges (`mergeCookies` of
`part_007` and `part_003`) merging newly issued credentials into the jar
is additive with same-name overwrite: a name occurring among the new
pairs ends up bound to the last new value for that name, and a name not
occurring among them keeps exactly its previous binding.  (In the
`Set`-based `updateCookiesFromResponse` variant of `src/server.js` the
old pair is kept alongside the new one instead; see the
counterexample.) -/
theorem C2_merge_overwrite_preserve (existing : List Char)
    (scs : List (List Char)) (k : List Char) :
    V7.mergeCookies existing scs
      = V7.renderJar (V7.applySetCookies (V7.loadJar existing) scs)
    ∧ (∀ v, V7.lastVal (V7.newPairs scs) k = some v →
        V7.jarGet (V7.applySetCookies (V7.loadJar existing) scs) k = some v)
    ∧ (V7.lastVal (V7.newPairs scs) k = none →
        V7.jarGet (V7.applySetCookies (V7.loadJar existing) scs) k
          = V7.jarGet (V7.loadJar existing) k) := by
  refine ⟨rfl, ?_, ?_⟩
  · intro v hv
    rw [V7.applySetCookies_eq_foldl, V7.jarGet_foldl_set, hv]
    rfl
  · intro hv
    rw [V7.applySetCookies_eq_foldl, V7.jarGet_foldl_set, hv]
    rfl

/-- Witness for C2: merging `Set-Cookie: A=9; Path=/` into the jar
`"A=1; B=2"` overwrites `A` with `9` and leaves `B` untouched. -/
theorem C2_merge_overwrite_preserve_witness :
    V7.jarGet (V7.applySetCookies (V7.loadJar ("A=1; B=2".toList))
        ["A=9; Path=/".toList]) ("A".toList) = some ("9".toList)
    ∧ V7.jarGet (V7.applySetCookies (V7.loadJar ("A=1; B=2".toList))
        ["A=9; Path=/".toList]) ("B".toList)
      = V7.jarGet (V7.loadJar ("A=1; B=2".toList)) ("B".toList) :=
  ⟨(C2_merge_overwrite_preserve ("A=1; B=2".toList) ["A=9; Path=/".toList]
      ("A".toList)).2.1 ("9".toList) (by decide),
   (C2_merge_overwrite_preserve ("A=1; B=2".toList) ["A=9; Path=/".toList]
      ("B".toList)).2.2 (by decide)⟩

/-- Counterexample to C2 as stated: in `updateCookiesFromResponse`
(`src/server.js` lines 76–96) a newly issued credential named like an
existing one does not replace its value — merging `Set-Cookie: A=2` into
the jar `"A=1"` keeps both pairs, yielding `"A=1; A=2"`. -/
theorem C2_counterexample :
    V0.updateCookiesMerge ("A=1".toList) ("A=2".toList) = ("A=1; A=2".toList)
    ∧ V0.updateCookiesMerge ("A=1".toList) ("A=2".toList) ≠ ("A=2".toList) := by
  constructor
  · decide
  · decide

/-- **C3** (amended): in the per-outcome-TTL cache variant a successful
result is stored with the 30-day window and a failed one with the
2-minute window; a failed result cached at `T` is absent at any time
strictly after `T + FAIL_TTL_MS`, and a successful one is still visible
at any `now` with `T ≤ now ≤ T + OK_TTL_MS`.  (The single-TTL variant of
`src/server.js` lines 43–61 keeps failed results for the full 30-day
window instead; see the counterexample.) -/
theorem C3_per_outcome_ttl {α : Type} (ok : Bool) (d : α) (T now : Nat) :
    V2.OK_TTL_MS = 1000 * 60 * 60 * 24 * 30
    ∧ V2.FAIL_TTL_MS = 1000 * 60 * 2
    ∧ (ok = false → now > T + V2.FAIL_TTL_MS →
        V2.cacheGet (some (V2.cacheSet T d (V2.outcomeTtl ok))) now = none)
    ∧ (ok = true → T ≤ now → now ≤ T + V2.OK_TTL_MS →
        V2.cacheGet (some (V2.cacheSet T d (V2.outcomeTtl ok))) now = some d) := by
  refine ⟨rfl, rfl, ?_, ?_⟩
  · intro hok hnow
    subst hok
    have hgt : now - T > V2.FAIL_TTL_MS := by
      unfold V2.FAIL_TTL_MS at hnow ⊢
      omega
    simp only [V2.cacheGet, V2.cacheSet, V2.outcomeTtl, Bool.false_eq_true,
      if_false]
    rw [if_pos hgt]
  · intro hok h1 h2
    subst hok
    have hle : ¬(now - T > V2.OK_TTL_MS) := by
      unfold V2.OK_TTL_MS at h2 ⊢
      omega
    simp only [V2.cacheGet, V2.cacheSet, V2.outcomeTtl, if_true]
    rw [if_neg hle]

/-- Witness for C3: a failed result stored at `T = 0` is gone at
`120001` ms, a successful one stored at `T = 0` is still served at the
same moment. -/
theorem C3_per_outcome_ttl_witness :
    V2.cacheGet (some (V2.cacheSet 0 (0 : Nat) (V2.outcomeTtl false))) 120001
      = none
    ∧ V2.cacheGet (some (V2.cacheSet 0 (0 : Nat) (V2.outcomeTtl true))) 120001
      = some 0 :=
  ⟨(C3_per_outcome_ttl false 0 0 120001).2.2.1 rfl (by decide),
   (C3_per_outcome_ttl true 0 0 120001).2.2.2 rfl (by decide) (by decide)⟩

/-- Counterexample to C3 as stated: the single-TTL variant
(`src/server.js` lines 43–61, used by its `/lookup` route) stores failed
results with the same 30-day window, so a failed result cached at
`T = 0` is still returned well past the short failure window — here at
`120001` ms, one past the sibling variants' 2-minute failure TTL. -/
theorem C3_counterexample :
    V0.cacheGet (some (V0.cacheSet 0
        (false, "No attributes returned".toList))) 120001
      = some (false, "No attributes returned".toList) := by
  decide

/-- **C4**: when the priming call yields no credentials — the warm-up
fetch throws, or its response carries no usable `Set-Cookie` pair — the
acquisition leaves the stored credential state exactly as it was:
`ensureGsisCookie` never clears the prior cookie, and any cookie it hands
back is the previously stored one. -/
theorem C4_failed_acquisition_preserves_state (st : P2.Session) (now : Nat)
    (warm : P2.WarmOutcome)
    (hfail : warm = .netError
      ∨ ∃ scs, warm = .response scs ∧ P2.buildCookieHeader scs = []) :
    (P2.ensureGsisCookie st now warm).1 = st
    ∧ ∀ c n, (P2.ensureGsisCookie st now warm).2 = .ok (c, n) →
        c = st.cookie := by
  unfold P2.ensureGsisCookie
  rcases hfail with hne | ⟨scs, hw, hb⟩
  · subst hne
    by_cases hfresh :
        (!st.cookie.isEmpty && decide (now - st.ts < P2.GSIS_COOKIE_TTL_MS)) = true
    · rw [if_pos hfresh]
      exact ⟨rfl, fun c n h => by cases h; rfl⟩
    · rw [if_neg hfresh]
      exact ⟨rfl, fun c n h => by cases h⟩
  · subst hw
    by_cases hfresh :
        (!st.cookie.isEmpty && decide (now - st.ts < P2.GSIS_COOKIE_TTL_MS)) = true
    · rw [if_pos hfresh]
      exact ⟨rfl, fun c n h => by cases h; rfl⟩
    · rw [if_neg hfresh]
      simp only [hb, List.isEmpty_nil, Bool.not_true, if_false]
      exact ⟨rfl, fun c n h => by cases h; rfl⟩

/-- Witness for C4: a stale jar holding `A=1`, primed by a response
whose only `Set-Cookie` header carries no pair, is left exactly in
place. -/
theorem C4_failed_acquisition_preserves_state_witness :
    (P2.ensureGsisCookie ⟨"A=1".toList, 0⟩ 10000000
        (.response ["; HttpOnly".toList])).1 = ⟨"A=1".toList, 0⟩
    ∧ ∀ c n, (P2.ensureGsisCookie ⟨"A=1".toList, 0⟩ 10000000
        (.response ["; HttpOnly".toList])).2 = .ok (c, n) →
        c = (⟨"A=1".toList, 0⟩ : P2.Session).cookie :=
  C4_failed_acquisition_preserves_state ⟨"A=1".toList, 0⟩ 10000000
    (.response ["; HttpOnly".toList])
    (Or.inr ⟨["; HttpOnly".toList], rfl, by decide⟩)

/-- Computation of the recovery re-acquisition: `ensureGsisCookie` on
the cleared jar always performs exactly one priming call. -/
theorem P2_ensure_cleared_eq (now : Nat) (scs : List (List Char)) :
    P2.ensureGsisCookie ⟨[], 0⟩ now (.response scs)
      = if !(P2.buildCookieHeader scs).isEmpty
          then (⟨P2.buildCookieHeader scs, now⟩, .ok (P2.buildCookieHeader scs, 1))
          else (⟨[], 0⟩, .ok ([], 1)) := by
  unfold P2.ensureGsisCookie
  simp

/-- Computation: `ensureGsisCookie` with a responding warm-up never
throws. -/
theorem P2_ensure_response_ok (st : P2.Session) (now : Nat)
    (scs : List (List Char)) :
    ∃ st' c n, P2.ensureGsisCookie st now (.response scs) = (st', .ok (c, n)) := by
  unfold P2.ensureGsisCookie
  by_cases hfresh :
      (!st.cookie.isEmpty && decide (now - st.ts < P2.GSIS_COOKIE_TTL_MS)) = true
  · rw [if_pos hfresh]
    exact ⟨st, st.cookie, 0, rfl⟩
  · rw [if_neg hfresh]
    by_cases hb2 : (P2.buildCookieHeader scs).isEmpty = true
    · exact ⟨st, st.cookie, 1, by simp [hb2]⟩
    · exact ⟨⟨P2.buildCookieHeader scs, now⟩, P2.buildCookieHeader scs, 1, by
        simp [hb2]⟩

/-- **C1**: when the first target fetch answers HTTP 403 (and the
warm-up fetches respond rather than throw), `fetchJsonViaGsisProxy`
clears the jar, re-acquires exactly once, retries the target exactly
once, and returns the classification of the retry: its payload when the
retry succeeds, and the surfaced HTTP-403 failure — with no further
retry — when the retry is another authorization failure.  The trace
records exactly 2 target fetches and exactly 1 recovery acquisition. -/
theorem C1_auth_recovery {β : Type} (st : P2.Session) (now : Nat)
    (w0 w1 : List (List Char)) (responses : Nat → P2.HttpResp β)
    (h403 : (responses 0).status = 403) :
    (P2.fetchJsonViaGsisProxy st now
        (fun i => if i = 0 then .response w0 else .response w1) responses).2
      = .ok ⟨P2.parseJsonResponse (responses 1), 2, 1⟩
    ∧ (∀ j, (responses 1).status = 200 → (responses 1).body = some j →
        P2.parseJsonResponse (responses 1) = .okJson j)
    ∧ ((responses 1).status = 403 → ∀ j, (responses 1).body = some j →
        P2.parseJsonResponse (responses 1) = .httpFail 403) := by
  refine ⟨?_, ?_, ?_⟩
  · obtain ⟨st1, c1, n1, h1⟩ := P2_ensure_response_ok st now w0
    unfold P2.fetchJsonViaGsisProxy
    have hw0 : (fun i => if i = 0 then P2.WarmOutcome.response w0
        else P2.WarmOutcome.response w1) 0 = .response w0 := rfl
    rw [hw0, h1]
    dsimp only
    rw [if_pos h403,
      show (if (1 : Nat) = 0 then P2.WarmOutcome.response w0
        else P2.WarmOutcome.response w1) = .response w1 from rfl,
      P2_ensure_cleared_eq]
    by_cases hb : (P2.buildCookieHeader w1).isEmpty = true
    · simp [hb]
    · simp [hb]
  · intro j hs hb
    unfold P2.parseJsonResponse
    rw [hb, hs]
    rfl
  · intro hs j hb
    unfold P2.parseJsonResponse
    rw [hb, hs]
    rfl

/-- Witness for C1: with a 403 then a 200 carrying payload `7`, the call
returns the successful payload after exactly one retry and one
re-acquisition. -/
theorem C1_auth_recovery_witness :
    (P2.fetchJsonViaGsisProxy ⟨[], 0⟩ 0
        (fun i => if i = 0 then .response ["S=1".toList]
          else .response ["S=2".toList])
        (fun i => if i = 0 then (⟨403, some 7⟩ : P2.HttpResp Nat)
          else ⟨200, some 7⟩)).2
      = .ok ⟨.okJson 7, 2, 1⟩ := by
  obtain ⟨heq, hok, h403r⟩ :=
    C1_auth_recovery ⟨[], 0⟩ 0 ["S=1".toList] ["S=2".toList]
      (fun i => if i = 0 then (⟨403, some 7⟩ : P2.HttpResp Nat)
        else ⟨200, some 7⟩) (by decide)
  rw [← hok 7 rfl rfl]
  exact heq

/-- **C5**: malformed input is rejected before any network call: a
non-finite coordinate makes `lookupByLatLng` — and the `/lookup` route
body on a cache miss — return the validation failure with zero network
calls; the sample postal inputs all normalize to `"10681"`; and a zip
that does not normalize to exactly 5 digits makes the `/lookup-zip`
route answer 400 with zero geocoder and zero zone-query calls. -/
theorem C5_validation_before_network :
    (∀ lat lng net, (lat.isFinite && lng.isFinite) = false →
      V7.lookupByLatLng lat lng net
        = (⟨false, some ("Invalid lat/lng".toList), none, none, none⟩, 0))
    ∧ (∀ lat lng net, (lat.isFinite && lng.isFinite) = false →
      V7.lookupRoute lat lng (fun _ => none) net
        = ((⟨false, some ("Invalid lat/lng".toList), none, none, none⟩, false), 0))
    ∧ V7.normalizeZip ("106 81".toList) = "10681".toList
    ∧ V7.normalizeZip ("GR-10681".toList) = "10681".toList
    ∧ V7.normalizeZip ("10681".toList) = "10681".toList
    ∧ (∀ zip cacheF resp net, (V7.normalizeZip zip).length ≠ 5 →
      V7.lookupZipRoute zip cacheF resp net = (.badRequest, 0, 0)) := by
  refine ⟨?_, ?_, by decide, by decide, by decide, ?_⟩
  · intro lat lng net h
    unfold V7.lookupByLatLng
    rw [h]
    rfl
  · intro lat lng net h
    unfold V7.lookupRoute V7.lookupByLatLng
    rw [h]
    rfl
  · intro zip cacheF resp net h
    unfold V7.lookupZipRoute
    rw [if_pos h]

/-- Witness for C5: a `NaN` latitude is rejected with zero network
calls, and the zip `"1068"` is rejected with zero geocoder and zone
calls. -/
theorem C5_validation_before_network_witness :
    V7.lookupByLatLng Js.JsNum.nan (.fin 23) ⟨0, .fail []⟩
      = (⟨false, some ("Invalid lat/lng".toList), none, none, none⟩, 0)
    ∧ V7.lookupZipRoute ("1068".toList) (fun _ => none) ⟨[]⟩ ⟨0, .fail []⟩
      = (.badRequest, 0, 0) :=
  ⟨C5_validation_before_network.1 Js.JsNum.nan (.fin 23) ⟨0, .fail []⟩
      (by decide),
   C5_validation_before_network.2.2.2.2.2 ("1068".toList) (fun _ => none)
      ⟨[]⟩ ⟨0, .fail []⟩ (by decide)⟩

/-- **C6** (amended): in the `lookupByLatLng` normalizer a payload whose
first feature carries an attributes record yields `ok` true with no
error, taking the assessed value TIMH-first then CURRENTZONEVALUE
(`Number`-coerced) and tolerating nulls in every field, while an absent
record set yields the "No attributes returned" failure.  (The
`/lookup-zip` truthiness variant of `src/server.js` additionally maps
records whose zone id or assessed value is null, empty or zero to the
same failure; see the counterexample.) -/
theorem C6_normalizer_tolerates_nulls (p : V7.QueryPayload) :
    (∀ a, (p.features.head?).bind (fun f => f.attributes) = some a →
      (V7.normalizeAttrs p).ok = true
      ∧ (V7.normalizeAttrs p).error = none
      ∧ (∀ v, a.TIMH = some v →
          (V7.normalizeAttrs p).tz_eur_sqm = some (V7.jsToNumber v))
      ∧ (a.TIMH = none →
          (V7.normalizeAttrs p).tz_eur_sqm
            = a.CURRENTZONEVALUE.map V7.jsToNumber))
    ∧ ((p.features.head?).bind (fun f => f.attributes) = none →
      V7.normalizeAttrs p
        = ⟨false, some ("No attributes returned".toList), none, none, none⟩) := by
  constructor
  · intro a ha
    unfold V7.normalizeAttrs
    rw [ha]
    refine ⟨rfl, rfl, ?_, ?_⟩
    · intro v hv
      dsimp only
      rw [hv]
      rfl
    · intro hv
      dsimp only
      rw [hv]
      rfl
  · intro ha
    unfold V7.normalizeAttrs
    rw [ha]

/-- Witness for C6: a single feature whose only attribute is
`TIMH = 3500` succeeds with assessed value 3500, nulls everywhere
else. -/
theorem C6_normalizer_tolerates_nulls_witness :
    (V7.normalizeAttrs ⟨[⟨some ⟨none, none, some (.num 3500), none⟩⟩]⟩).ok = true
    ∧ (V7.normalizeAttrs ⟨[⟨some ⟨none, none, some (.num 3500), none⟩⟩]⟩).error
      = none
    ∧ (V7.normalizeAttrs ⟨[⟨some ⟨none, none, some (.num 3500), none⟩⟩]⟩).tz_eur_sqm
      = some (V7.jsToNumber (.num 3500)) := by
  obtain ⟨hmain, -⟩ := C6_normalizer_tolerates_nulls
    ⟨[⟨some ⟨none, none, some (.num 3500), none⟩⟩]⟩
  obtain ⟨h1, h2, h3, -⟩ := hmain ⟨none, none, some (.num 3500), none⟩ rfl
  exact ⟨h1, h2, h3 (.num 3500) rfl⟩

/-- Counterexample to C6 as stated: in the `/lookup-zip` truthiness
variant (`src/server.js` lines 914–924) a payload carrying one feature
whose `ZONEREGISTRYID` is null is mapped to the `"No attributes
returned"` failure even though a record was returned. -/
theorem C6_counterexample :
    VZ.zipZoneOutcome (VZ.queryZoneByPoint
        ⟨[⟨some ⟨none, some (.str ("Kolonaki".toList)), some (.num 3500), none⟩⟩]⟩)
      = ⟨false, some ("No attributes returned".toList)⟩
    ∧ (⟨[⟨some ⟨none, some (.str ("Kolonaki".toList)), some (.num 3500), none⟩⟩]⟩
        : V7.QueryPayload).features.length = 1 := by
  exact ⟨rfl, rfl⟩

/-- Computation rule for the 6-decimal rounding of a nonnegative
rational, used to evaluate `toFixed(6)` at concrete doubles. -/
theorem round6_eq (q : ℚ) (n : ℤ) (h0 : 0 ≤ q)
    (h1 : (n : ℚ) ≤ q * 1000000 + 1/2) (h2 : q * 1000000 + 1/2 < n + 1) :
    Js.round6 q = n / 1000000 := by
  unfold Js.round6
  rw [if_pos h0, Int.floor_eq_iff.mpr ⟨h1, h2⟩]

/-- **C7** (amended): the cache key is a deterministic function of the
canonicalized query — coordinates agreeing after the 6-decimal rounding
produce identical keys, and equal normalized postal codes produce
identical keys.  (The particular input pair named by the claim does not
agree after rounding, because the IEEE-754 double behind `37.9838095`
lies strictly below the decimal midpoint; see the counterexample.) -/
theorem C7_cache_key_deterministic :
    (∀ a b c d : ℚ, Js.round6 a = Js.round6 c → Js.round6 b = Js.round6 d →
      V7.makeCacheKeyLL (.fin a) (.fin b) = V7.makeCacheKeyLL (.fin c) (.fin d))
    ∧ (∀ z w : List Char, V7.normalizeZip z = V7.normalizeZip w →
      V7.makeCacheKeyZip (V7.normalizeZip z)
        = V7.makeCacheKeyZip (V7.normalizeZip w)) := by
  constructor
  · intro a b c d ha hb
    unfold V7.makeCacheKeyLL Js.toFixed6Plus
    dsimp only
    rw [ha, hb]
  · intro z w h
    rw [h]

/-- Witness for C7: `37.9838104` and `37.98381` round alike at 6
decimals and give identical keys, as do the two spellings of the zip. -/
theorem C7_cache_key_deterministic_witness :
    V7.makeCacheKeyLL (.fin (379838104 / 10000000)) (.fin (23727539 / 1000000))
      = V7.makeCacheKeyLL (.fin (3798381 / 100000)) (.fin (23727539 / 1000000))
    ∧ V7.makeCacheKeyZip (V7.normalizeZip ("106 81".toList))
      = V7.makeCacheKeyZip (V7.normalizeZip ("GR-10681".toList)) := by
  refine ⟨C7_cache_key_deterministic.1 _ _ _ _ ?_ rfl,
    C7_cache_key_deterministic.2 _ _ (by decide)⟩
  rw [round6_eq (379838104 / 10000000) 37983810 (by norm_num) (by norm_num)
      (by norm_num),
    round6_eq (3798381 / 100000) 37983810 (by norm_num) (by norm_num)
      (by norm_num)]

/-- Counterexample to C7 as stated: using the exact values of the
IEEE-754 doubles `37.983810` (5345746017565991 / 2^47), `37.9838095`
(5345745947197247 / 2^47), `23.727539` (3339354243713091 / 2^47) and
`23.7275391` (417419282223355 / 2^44), the two lookups named by the
claim produce different cache keys: the first latitude canonicalizes to
37.983810 and the second to 37.983809. -/
theorem C7_counterexample :
    V7.makeCacheKeyLL (.fin (5345746017565991 / 140737488355328))
        (.fin (3339354243713091 / 140737488355328))
      ≠ V7.makeCacheKeyLL (.fin (5345745947197247 / 140737488355328))
        (.fin (417419282223355 / 17592186044416)) := by
  have h1 : Js.round6 (5345746017565991 / 140737488355328) = 37983810 / 1000000 :=
    round6_eq _ 37983810 (by norm_num) (by norm_num) (by norm_num)
  have h2 : Js.round6 (5345745947197247 / 140737488355328) = 37983809 / 1000000 :=
    round6_eq _ 37983809 (by norm_num) (by norm_num) (by norm_num)
  intro hcontra
  simp only [V7.makeCacheKeyLL, Js.toFixed6Plus, Js.canonOf,
    V7.LLKey.mk.injEq, Js.CanonNum.num.injEq] at hcontra
  rw [h1, h2] at hcontra
  have : (37983810 / 1000000 : ℚ) = 37983809 / 1000000 := hcontra.1
  norm_num at this

/-- **C9** (amended): in the variants that compute the cache key before
validating, each non-finite coordinate canonicalizes to `null`
(`NaN.toFixed(6)` is `"NaN"`, `+"NaN"` is `NaN`, and JSON serializes it
as `null`), so all requests whose coordinates are *both* non-finite
share one cache key and a cached entry under a key is replayed
(`cached: true`, zero network calls) for any later request with the same
key; malformed requests that still differ in a finite coordinate keep
distinct keys, so they do not all share a single entry (see the
counterexample). -/
theorem C9_malformed_share_key :
    (∀ x : Js.JsNum, x.isFinite = false → Js.canonOf (Js.toFixed6Plus x) = .null)
    ∧ (∀ x y z w : Js.JsNum, x.isFinite = false → y.isFinite = false →
        z.isFinite = false → w.isFinite = false →
        V7.makeCacheKeyLL x y = V7.makeCacheKeyLL z w)
    ∧ (∀ x y hit net cacheF,
        cacheF (V7.makeCacheKeyLL x y) = some hit →
        V7.lookupRoute x y cacheF net = ((hit, true), 0)) := by
  have hnull : ∀ x : Js.JsNum, x.isFinite = false →
      Js.canonOf (Js.toFixed6Plus x) = .null := by
    intro x hx
    cases x with
    | nan => rfl
    | inf b => rfl
    | fin q => simp [Js.JsNum.isFinite] at hx
  refine ⟨hnull, ?_, ?_⟩
  · intro x y z w hx hy hz hw
    unfold V7.makeCacheKeyLL
    rw [hnull x hx, hnull y hy, hnull z hz, hnull w hw]
  · intro x y hit net cacheF hc
    unfold V7.lookupRoute
    rw [hc]

/-- Witness for C9: `NaN` and `Infinity` coordinates all collapse to the
same key, and a cached entry under that key is replayed with zero
network calls. -/
theorem C9_malformed_share_key_witness :
    V7.makeCacheKeyLL Js.JsNum.nan (.inf true)
      = V7.makeCacheKeyLL (.inf false) Js.JsNum.nan
    ∧ V7.lookupRoute Js.JsNum.nan (.inf true)
        (fun _ => some ⟨false, some ("Invalid lat/lng".toList), none, none, none⟩)
        ⟨0, .fail []⟩
      = ((⟨false, some ("Invalid lat/lng".toList), none, none, none⟩, true), 0) :=
  ⟨C9_malformed_share_key.2.1 Js.JsNum.nan (.inf true) (.inf false)
      Js.JsNum.nan rfl rfl rfl rfl,
   C9_malformed_share_key.2.2 Js.JsNum.nan (.inf true)
      ⟨false, some ("Invalid lat/lng".toList), none, none, none⟩
      ⟨0, .fail []⟩
      (fun _ => some ⟨false, some ("Invalid lat/lng".toList), none, none, none⟩)
      rfl⟩

/-- Counterexample to C9 as stated: two requests whose latitude fails to
parse but whose longitudes are the distinct finite numbers 23 and 24 map
to *different* cache keys, so malformed coordinate requests do not all
share one single key. -/
theorem C9_counterexample :
    V7.makeCacheKeyLL Js.JsNum.nan (.fin 23)
      ≠ V7.makeCacheKeyLL Js.JsNum.nan (.fin 24) := by
  have h1 : Js.round6 (23 : ℚ) = 23000000 / 1000000 :=
    round6_eq _ 23000000 (by norm_num) (by norm_num) (by norm_num)
  have h2 : Js.round6 (24 : ℚ) = 24000000 / 1000000 :=
    round6_eq _ 24000000 (by norm_num) (by norm_num) (by norm_num)
  intro hcontra
  simp only [V7.makeCacheKeyLL, Js.toFixed6Plus, Js.canonOf,
    V7.LLKey.mk.injEq, Js.CanonNum.num.injEq] at hcontra
  rw [h1, h2] at hcontra
  have : (23000000 / 1000000 : ℚ) = 24000000 / 1000000 := hcontra.2
  norm_num at this

/-- Idempotence of the digit-stripping normalization. -/
theorem V7_normalizeZip_idem (zip : List Char) :
    V7.normalizeZip (V7.normalizeZip zip) = V7.normalizeZip zip := by
  unfold V7.normalizeZip
  simp [List.filter_filter]

/-- **C10**: `geocodeZip` accepts exactly when the top-ranked candidate
exists with finite latitude and longitude and a score of at least 90 (an
absent score counts as 0 and is rejected), and whenever it rejects, the
`/lookup-zip` route returns the geocode-failure outcome having made one
geocoder call and zero zone-query calls. -/
theorem C10_geocode_threshold (zip : List Char) (resp : V7.GeoResponse) :
    ((V7.normalizeZip zip).length = 5 →
      ((V7.geocodeZip (V7.normalizeZip zip) resp).isSome = true ↔
        ∃ c, resp.candidates.head? = some c
          ∧ V7.finOpt c.lat = true ∧ V7.finOpt c.lng = true
          ∧ ∃ s, c.score = some s ∧ 90 ≤ s))
    ∧ (∀ cacheF net, (V7.normalizeZip zip).length = 5 →
        cacheF (V7.makeCacheKeyZip (V7.normalizeZip zip)) = none →
        V7.geocodeZip (V7.normalizeZip zip) resp = none →
        V7.lookupZipRoute zip cacheF resp net
          = (.geoFailed (V7.normalizeZip zip), 1, 0)) := by
  constructor
  · intro hlen
    unfold V7.geocodeZip
    rw [V7_normalizeZip_idem, if_neg (by rw [hlen]; exact fun h => h rfl)]
    dsimp only
    cases hc : resp.candidates.head? with
    | none =>
      simp [V7.finOpt]
    | some cand =>
      obtain ⟨clat, clng, cscore, caddr⟩ := cand
      simp only [Option.some_bind]
      by_cases hla : V7.finOpt clat = true
      · by_cases hln : V7.finOpt clng = true
        · cases cscore with
          | none =>
            rw [if_pos (by simp [hla, hln])]
            simp only [Option.isSome_none, Bool.false_eq_true, false_iff]
            rintro ⟨c, hceq, -, -, s, hseq, -⟩
            cases hceq
            cases hseq
          | some sc =>
            by_cases hsc : (90 : ℚ) ≤ sc
            · rw [if_neg (by simp [hla, hln]; exact hsc)]
              simp only [Option.isSome_some, true_iff]
              exact ⟨⟨clat, clng, some sc, caddr⟩, rfl, hla, hln, sc, rfl, hsc⟩
            · rw [if_pos (by simp [hla, hln]; exact lt_of_not_le hsc)]
              simp only [Option.isSome_none, Bool.false_eq_true, false_iff]
              rintro ⟨c, hceq, -, -, s, hseq, hsle⟩
              cases hceq
              cases hseq
              exact hsc hsle
        · rw [if_pos (by simp [hln])]
          simp only [Option.isSome_none, Bool.false_eq_true, false_iff]
          rintro ⟨c, hceq, -, hln2, -⟩
          cases hceq
          exact hln hln2
      · rw [if_pos (by simp [hla])]
        simp only [Option.isSome_none, Bool.false_eq_true, false_iff]
        rintro ⟨c, hceq, hla2, -⟩
        cases hceq
        exact hla hla2
  · intro cacheF net hlen hcache hgeo
    unfold V7.lookupZipRoute
    rw [if_neg (by rw [hlen]; exact fun h => h rfl), hcache, hgeo]

/-- Witness for C10: a candidate with finite coordinates but score 40 is
rejected and the route returns the geocode failure without touching the
zone layer. -/
theorem C10_geocode_threshold_witness :
    ((V7.geocodeZip (V7.normalizeZip ("10681".toList))
        ⟨[⟨some (.fin 38), some (.fin 23), some 40, none⟩]⟩).isSome = true ↔
      ∃ c, (⟨[⟨some (.fin 38), some (.fin 23), some 40, none⟩]⟩
          : V7.GeoResponse).candidates.head? = some c
        ∧ V7.finOpt c.lat = true ∧ V7.finOpt c.lng = true
        ∧ ∃ s, c.score = some s ∧ 90 ≤ s)
    ∧ V7.lookupZipRoute ("10681".toList) (fun _ => none)
        ⟨[⟨some (.fin 38), some (.fin 23), some 40, none⟩]⟩ ⟨0, .fail []⟩
      = (.geoFailed (V7.normalizeZip ("10681".toList)), 1, 0) := by
  obtain ⟨hiff, hroute⟩ := C10_geocode_threshold ("10681".toList)
    ⟨[⟨some (.fin 38), some (.fin 23), some 40, none⟩]⟩
  refine ⟨hiff (by decide), hroute (fun _ => none) ⟨0, .fail []⟩ (by decide) rfl ?_⟩
  have h := hiff (by decide)
  cases hgeo : (V7.geocodeZip (V7.normalizeZip ("10681".toList))
      ⟨[⟨some (.fin 38), some (.fin 23), some 40, none⟩]⟩) with
  | none => rfl
  | some g =>
    exfalso
    obtain ⟨c, hceq, -, -, s, hseq, hsle⟩ := h.mp (by rw [hgeo]; rfl)
    cases hceq
    cases hseq
    have : ¬((90 : ℚ) ≤ 40) := by decide
    exact this hsle

/-- **C8** (amended): in the route variants wrapped in `try/catch`
(`src/server.js`) every exception thrown by the flow is converted at the
route boundary into a structured `500 { ok: false, error }` response and
a produced value is rendered normally, so the handler always returns a
response; the bare handlers of `part_001` re-raise instead (see the
counterexample). -/
theorem C8_exceptions_caught {α : Type} (flow : Routes.Awaited α)
    (render : α → Routes.Response α) :
    (∀ e, flow = .thrown e →
      Routes.lookupRouteCaught flow render = ⟨500, false, some e.message, none⟩)
    ∧ (∀ a, flow = .value a →
      Routes.lookupRouteCaught flow render = render a) := by
  constructor
  · intro e he
    rw [he]
    rfl
  · intro a ha
    rw [ha]
    rfl

/-- Witness for C8: a thrown `fetch failed` becomes the structured 500
failure. -/
theorem C8_exceptions_caught_witness :
    Routes.lookupRouteCaught (.thrown ⟨"fetch failed".toList⟩)
        (fun n : Nat => ⟨200, true, none, some n⟩)
      = ⟨500, false, some ("fetch failed".toList), none⟩ :=
  (C8_exceptions_caught (.thrown ⟨"fetch failed".toList⟩)
      (fun n : Nat => ⟨200, true, none, some n⟩)).1
    ⟨"fetch failed".toList⟩ rfl

/-- Counterexample to C8 as stated: the `/lookup` handler of
`src/unnamed/part_001` has no `try/catch`, so an exception thrown during
the flow propagates out of the handler instead of becoming a structured
failure result. -/
theorem C8_counterexample :
    Routes.lookupRouteUncaught (.thrown ⟨"fetch failed".toList⟩)
        (fun n : Nat => ⟨200, true, none, some n⟩)
      = .thrown ⟨"fetch failed".toList⟩ := rfl
